import Mathlib

/-!
Verification of the event-streaming session core of the AG-UI CrewAI research
assistant backend (files `src/chatbot/ag_ui_server.py`,
`src/chatbot/listeners/real_time_listener.py`, `src/chatbot/utils/chat_helpers.py`).

The Python code is shallowly embedded: Python strings are Lean `String`s
manipulated through helper functions that mirror the semantics of the Python
string methods used by the source (`split`, `strip`, `startswith`, `endswith`,
`replace`, `in`, `capitalize`, `len`); Python values stored in event `data`
dictionaries are the inductive `PyVal`; dictionaries are association lists in
insertion order, matching Python dict semantics; fallible calls are
`Except`-valued; the external LLM completion calls and the research crew are
parameters supplying their outcome, since their behaviour is outside this
repository.
-/

/-! ### Python string semantics helpers

Each helper mirrors one Python `str` method on Lean `String`, working on the
underlying character list with fuel-free structural recursion where possible
and explicit fuel (always sufficient, bounded by the string length) for
splitting.  These are semantic models of the Python built-ins used by the
source, not of repository code.
-/

/-- One step list of `s.split(sep)` for a non-empty separator `s0 :: srest`:
structural recursion on fuel, which callers instantiate with the length of the
scanned character list (always enough, since each step consumes at least one
character). -/
def pySplitGo (s0 : Char) (srest : List Char) : Nat → List Char → List Char → List (List Char)
  | _, [], acc => [acc.reverse]
  | 0, l, acc => [acc.reverse ++ l]
  | fuel+1, c :: rest, acc =>
    if c = s0 && srest.isPrefixOf rest then
      acc.reverse :: pySplitGo s0 srest fuel (rest.drop srest.length) []
    else pySplitGo s0 srest fuel rest (c :: acc)

/-- Python `s.split(sep)` for a non-empty separator (all separators used by the
source are non-empty literals); an empty separator returns the string whole. -/
def pySplitOn (s sep : String) : List String :=
  match sep.data with
  | [] => [s]
  | s0 :: srest => (pySplitGo s0 srest s.data.length s.data []).map String.mk

/-- Python `s.strip()`: remove whitespace from both ends. -/
def pyStrip (s : String) : String :=
  String.mk (((s.data.dropWhile Char.isWhitespace).reverse.dropWhile Char.isWhitespace).reverse)

/-- Python `sep.join(parts)`. -/
def pyJoin (sep : String) (parts : List String) : String :=
  String.mk (match parts with
  | [] => []
  | p :: ps => p.data ++ (ps.map (fun q => sep.data ++ q.data)).flatten)

/-- Python `s.replace(old, new)` for a non-empty `old`, via the split/join
identity `s.replace(a, b) = b.join(s.split(a))`. -/
def pyReplace (s old new : String) : String := pyJoin new (pySplitOn s old)

/-- Python `s.startswith(pre)`. -/
def pyStartsWith (s pre : String) : Bool := pre.data.isPrefixOf s.data

/-- Python `s.endswith(suf)`. -/
def pyEndsWith (s suf : String) : Bool := suf.data.isSuffixOf s.data

/-- Python `pat in s` (substring containment), for non-empty `pat`. -/
def pyContainsSub (s pat : String) : Bool := 2 ≤ (pySplitOn s pat).length

/-- Python `len(s)` (a count of characters, as in Python). -/
def pyLen (s : String) : Nat := s.data.length

/-- Python `s.capitalize()`: first character upper-cased, the rest lower-cased. -/
def pyCapitalize (s : String) : String :=
  String.mk (match s.data with
  | [] => []
  | c :: cs => c.toUpper :: cs.map Char.toLower)

/-- Python `s[n:]`. -/
def pyDropChars (s : String) (n : Nat) : String := String.mk (s.data.drop n)

/-! ### Python values carried in event `data` dictionaries -/

/-- A Python value as stored in an event `data` dict.  The primitives are the
classes named by the source's `isinstance(value, (str, int, float, bool,
type(None)))` check; `vfloat` carries only its printed representation, since
the source never computes with float values; `vlist`/`vdict` are containers;
`vobj` is any other (opaque, e.g. third-party library) object, carried by the
string Python would render for it. -/
inductive PyVal where
  | vstr (s : String)
  | vint (n : Int)
  | vfloat (r : String)
  | vbool (b : Bool)
  | vnone
  | vlist (xs : List PyVal)
  | vdict (entries : List (String × PyVal))
  | vobj (r : String)

/-- The source's `isinstance(value, (str, int, float, bool, type(None)))` test. -/
def PyVal.isPrimitive : PyVal → Bool
  | .vstr _ => true
  | .vint _ => true
  | .vfloat _ => true
  | .vbool _ => true
  | .vnone => true
  | _ => false

/-- Whether a value is a Python `str`. -/
def PyVal.isStr : PyVal → Bool
  | .vstr _ => true
  | _ => false

/-- Whether a value is a Python `list`. -/
def PyVal.isList : PyVal → Bool
  | .vlist _ => true
  | _ => false

mutual
/-- Python `str(value)`: the string rendering of a value.  Containers render
their elements recursively (element quoting is not modelled; no claim depends
on the rendered text, only on which values get coerced to strings). -/
def pyStr : PyVal → String
  | .vstr s => s
  | .vint n => toString n
  | .vfloat r => r
  | .vbool b => if b then "True" else "False"
  | .vnone => "None"
  | .vobj r => r
  | .vlist xs => "[" ++ pyJoin ", " (pyStrItems xs) ++ "]"
  | .vdict xs => "\x7b" ++ pyJoin ", " (pyStrEntries xs) ++ "\x7d"

/-- Renderings of the elements of a Python list. -/
def pyStrItems : List PyVal → List String
  | [] => []
  | v :: vs => pyStr v :: pyStrItems vs

/-- Renderings of the entries of a Python dict. -/
def pyStrEntries : List (String × PyVal) → List String
  | [] => []
  | kv :: vs => (kv.1 ++ ": " ++ pyStr kv.2) :: pyStrEntries vs
end

/-! ### `real_time_listener.py`: StreamEvent, the event queue, emit and drain -/

/-- `StreamEvent` dataclass (`real_time_listener.py`, lines 20-27).  The Python
field `type` is `etype` here (`type` is a Lean keyword). -/
structure StreamEvent where
  etype : String
  data : List (String × PyVal)
  timestamp : String
  agent_id : Option String := none
  session_id : Option String := none

/-- `RealTimeListener._clean_event_data` (lines 245-263): one flat pass over
the `data` dict, keeping `str`/`int`/`float`/`bool`/`None` values and coercing
every other value — containers included — wholly to `str(value)`. -/
def clean_event_data (event : StreamEvent) : StreamEvent :=
  { event with data :=
      event.data.map (fun kv =>
        if kv.2.isPrimitive then kv else (kv.1, PyVal.vstr (pyStr kv.2))) }

mutual
/-- Modelled from the spec: the sanitizer the spec describes in §4.1/§4.5
("recursively coerces non-primitive values to strings, recursing through
sequences and mappings"), which preserves sequence/mapping structure and
stringifies only non-primitive leaves.  This definition follows the spec's
words, for comparison with `clean_event_data`, which is translated from the
source. -/
def clean_value_spec : PyVal → PyVal
  | .vlist xs => .vlist (clean_values_spec xs)
  | .vdict xs => .vdict (clean_entries_spec xs)
  | .vstr s => .vstr s
  | .vint n => .vint n
  | .vfloat r => .vfloat r
  | .vbool b => .vbool b
  | .vnone => .vnone
  | .vobj r => .vstr (pyStr (.vobj r))

/-- Modelled from the spec: recursive sanitization of a sequence. -/
def clean_values_spec : List PyVal → List PyVal
  | [] => []
  | v :: vs => clean_value_spec v :: clean_values_spec vs

/-- Modelled from the spec: recursive sanitization of a mapping. -/
def clean_entries_spec : List (String × PyVal) → List (String × PyVal)
  | [] => []
  | kv :: vs => (kv.1, clean_value_spec kv.2) :: clean_entries_spec vs
end

/-- Modelled from the spec: `clean_event_data` as the spec's words describe it,
using the recursive sanitizer on every `data` value. -/
def clean_event_data_spec (event : StreamEvent) : StreamEvent :=
  { event with data := clean_entries_spec event.data }

/-- The listener's event queue: `queue.Queue()` (line 39).  Python's
`queue.Queue(maxsize)` treats `maxsize <= 0` as unbounded; the source
constructs it with the default `maxsize = 0`.  Items are kept in FIFO order,
oldest first. -/
structure EventQueue where
  maxsize : Nat := 0
  items : List StreamEvent := []

/-- Python `Queue.full()`: true only for a bounded queue at capacity. -/
def EventQueue.full (q : EventQueue) : Bool :=
  decide (0 < q.maxsize ∧ q.maxsize ≤ q.items.length)

/-- Python `Queue.put_nowait(item)`: enqueue without blocking; on a full
bounded queue it raises `queue.Full` (the `.error` case) and leaves the queue
unchanged. -/
def EventQueue.put_nowait (q : EventQueue) (e : StreamEvent) : Except Unit EventQueue :=
  if q.full then .error () else .ok { q with items := q.items ++ [e] }

/-- `RealTimeListener` state: the queue plus the session epoch id (lines 36-40). -/
structure RealTimeListener where
  event_queue : EventQueue := {}
  session_id : String

/-- `RealTimeListener._emit_event` (lines 236-243): clean the event, then
`put_nowait` it onto the queue.  The debug print on lines 241-243 is
observability only and is not modelled. -/
def emit_event (listener : RealTimeListener) (event : StreamEvent) :
    Except Unit RealTimeListener :=
  match listener.event_queue.put_nowait (clean_event_data event) with
  | .error e => .error e
  | .ok q => .ok { listener with event_queue := q }

/-- `RealTimeListener.get_events_realtime` (lines 265-274): drain loop with
`get_nowait` until `queue.Empty`; returns all queued events, oldest first, and
leaves the queue empty. -/
def get_events_realtime (listener : RealTimeListener) :
    List StreamEvent × RealTimeListener :=
  (listener.event_queue.items,
   { listener with event_queue := { listener.event_queue with items := [] } })

/-- `RealTimeListener.reset_session` (lines 283-291): new session id, queue
drained empty.  The fresh uuid4 is a parameter. -/
def reset_session (listener : RealTimeListener) (fresh_id : String) : RealTimeListener :=
  { listener with
      session_id := fresh_id,
      event_queue := { listener.event_queue with items := [] } }

/-! ### `real_time_listener.py`: the CrewAI event handlers (`setup_listeners`) -/

/-- The `agent` attribute carried by a CrewAI event: `str(agent.id)` plus the
`role` attribute (`getattr(event, 'agent', None)` at the call sites makes the
whole agent optional; `getattr(agent, 'role', 'Research Agent')` makes the
role optional). -/
structure AgentInfo where
  id : String
  role : Option String := none

/-- `event.tool_args`, which the source receives either as a string (with its
JSON parse outcome: `json.loads` is an external built-in, modelled by the
supplied `parsed` result, `none` on `JSONDecodeError`) or as an
already-parsed dict. -/
inductive ToolArgs where
  | strArgs (raw : String) (parsed : Option PyVal)
  | dictArgs (entries : List (String × PyVal))

/-- Python `dict.get(key, default)` on an association list: first binding of
the key, else the default. -/
def dictGet (entries : List (String × PyVal)) (key : String) (dflt : PyVal) : PyVal :=
  match entries.find? (fun kv => kv.1 == key) with
  | some kv => kv.2
  | none => dflt

/-- Python `key in dict`. -/
def dictHas (entries : List (String × PyVal)) (key : String) : Bool :=
  (entries.find? (fun kv => kv.1 == key)).isSome

/-- The `tool_query` extraction logic that `on_tool_usage_started`,
`on_tool_usage_finished` and `on_tool_usage_error` each repeat verbatim
(lines 96-121, 143-167, 194-218): default `"Unknown query"`; a string
`tool_args` is JSON-parsed and, if the parse yields a dict, the nested
`query.search_query` or flat `query` entry is taken, while a parse yielding a
non-dict or failing keeps the raw string; a dict `tool_args` takes the same
nested or flat `query` entry. -/
def extract_tool_query (args : ToolArgs) : PyVal :=
  let fromDict (entries : List (String × PyVal)) : PyVal :=
    match dictGet entries "query" PyVal.vnone, dictHas entries "query" with
    | .vdict inner, _ => dictGet inner "search_query" (.vstr "Unknown query")
    | _, true => dictGet entries "query" (.vstr "Unknown query")
    | _, false => .vstr "Unknown query"
  match args with
  | .strArgs raw parsed =>
    match parsed with
    | some (.vdict entries) => fromDict entries
    | some _ => .vstr raw
    | none => .vstr raw
  | .dictArgs entries => fromDict entries

/-- The incoming CrewAI bus events the listener subscribes to
(`setup_listeners`, lines 42-233): agent execution started/completed, tool
usage started/finished/error. -/
inductive CrewEvent where
  | agentStarted (agent : Option AgentInfo)
  | agentCompleted (agent : Option AgentInfo)
  | toolStarted (tool_name : String) (tool_args : ToolArgs) (agent : Option AgentInfo)
  | toolFinished (tool_name : String) (tool_args : ToolArgs) (agent : Option AgentInfo)
  | toolError (tool_name : String) (tool_args : ToolArgs) (agent : Option AgentInfo) (error : String)

/-- `getattr(agent, 'role', 'Research Agent') if agent else 'Research Agent'`. -/
def agentRole (agent : Option AgentInfo) : String :=
  match agent with
  | some a => a.role.getD "Research Agent"
  | none => "Research Agent"

/-- `str(agent.id) if agent and hasattr(agent, 'id') else None` (CrewAI agents
always carry an `id`). -/
def agentId (agent : Option AgentInfo) : Option String :=
  match agent with
  | some a => some a.id
  | none => none

/-- The `StreamEvent` (if any) a CrewAI bus event makes the listener emit, as
registered by `setup_listeners`: the two agent handlers emit only when the
event has an agent; `on_tool_usage_started` and `on_tool_usage_error` always
emit; the `TOOL_COMPLETED` emission in `on_tool_usage_finished` is commented
out in the source (lines 172-185), so that handler emits nothing.  `now` is
the `datetime.now().isoformat()` timestamp taken at emission. -/
def listener_event (e : CrewEvent) (now : String) (sid : String) : Option StreamEvent :=
  match e with
  | .agentStarted agent =>
    match agent with
    | some a => some
        { etype := "AGENT_STARTED"
          data := [("agent_role", .vstr (a.role.getD "Research Agent")),
                   ("message", .vstr "Research agent thinking..."),
                   ("status", .vstr "executing")]
          timestamp := now
          agent_id := some a.id
          session_id := some sid }
    | none => none
  | .agentCompleted agent =>
    match agent with
    | some a => some
        { etype := "AGENT_FINISHED"
          data := [("agent_role", .vstr (a.role.getD "Research Agent")),
                   ("message", .vstr "Gathering final thoughts..."),
                   ("status", .vstr "finished")]
          timestamp := now
          agent_id := some a.id
          session_id := some sid }
    | none => none
  | .toolStarted tool_name tool_args agent =>
    let tool_query := extract_tool_query tool_args
    some
      { etype := "TOOL_STARTED"
        data := [("tool_name", .vstr tool_name),
                 ("tool_query", tool_query),
                 ("agent_role", .vstr (agentRole agent)),
                 ("message", .vstr ("Searching for " ++ pyStr tool_query)),
                 ("status", .vstr "executing")]
        timestamp := now
        agent_id := agentId agent
        session_id := some sid }
  | .toolFinished _ _ _ => none
  | .toolError tool_name tool_args agent error =>
    let tool_query := extract_tool_query tool_args
    some
      { etype := "TOOL_ERROR"
        data := [("tool_name", .vstr tool_name),
                 ("tool_query", tool_query),
                 ("agent_role", .vstr (agentRole agent)),
                 ("message", .vstr ("Error searching for " ++ pyStr tool_query)),
                 ("status", .vstr "error"),
                 ("error", .vstr error)]
        timestamp := now
        agent_id := agentId agent
        session_id := some sid }

/-- The event types the listener can ever enqueue. -/
def emittableTypes : List String :=
  ["AGENT_STARTED", "AGENT_FINISHED", "TOOL_STARTED", "TOOL_ERROR"]

/-! ### `chat_helpers.py`: `detect_intent` -/

/-- The tag-line extraction `detect_intent` performs for `INTENT:` (lines
57-60) and `EXPANDED_QUERY:` (lines 62-65): if the tag occurs in the content,
take the first line whose stripped form starts with the tag, remove every
occurrence of the tag from that line and strip; otherwise no value. -/
def tag_line_value (content tag : String) : Option String :=
  if pyContainsSub content tag then
    match (pySplitOn content "\n").filter (fun l => pyStartsWith (pyStrip l) tag) with
    | [] => none
    | l :: _ => some (pyStrip (pyReplace l tag ""))
  else none

/-- `detect_intent` (`chat_helpers.py`, lines 18-78).  The external
`litellm.completion` call is the parameter `completionResult`: `.error` when
the call raises (any exception inside the `try` lands in the handler on lines
76-78), `.ok content` for the returned message content.  The conversation
history only shapes the prompt sent to the external model, so it does not
appear here. -/
def detect_intent (text : String) (completionResult : Except String String) :
    String × String :=
  match completionResult with
  | .error _ => ("CHAT", text)
  | .ok c =>
    let content := pyStrip c
    let intent := (tag_line_value content "INTENT:").getD "CHAT"
    let expanded_query := (tag_line_value content "EXPANDED_QUERY:").getD text
    if intent = "SEARCH" ∨ intent = "CHAT" ∨ intent = "EXIT" then
      (intent, expanded_query)
    else ("CHAT", text)

/-! ### `ag_ui_server.py`: the chatbot session (`ChatbotSession.process_message`) -/

/-- One element of a research result's `sources` list.  The adapter
(`ag_ui_server.py`, lines 277-295) distinguishes plain strings (the old
format), objects with a `url` attribute (the `SourceInfo` format of the
research-pipeline contract, with optional `title`, `image_url`, `snippet`),
and anything else (silently skipped). -/
inductive SourceVal where
  | strSource (s : String)
  | info (url : String) (title : Option String) (image_url : Option String) (snippet : Option String)
  | plain
  deriving DecidableEq, Repr

/-- The research payload `ChatbotSession.process_message` builds from the crew
output (`ag_ui_server.py`, lines 91-95): `{summary, sources, citations}`. -/
structure ResearchResults where
  summary : String := ""
  sources : List SourceVal := []
  citations : List String := []
  deriving DecidableEq, Repr

/-- One conversation-history entry.  Python appends a dict with keys `input`,
`response`, `type` (field `htype` here; `type` is a Lean keyword), and — on
research turns only — `sources`; the `sources` key is absent on chat turns
(`none`). -/
structure HistEntry where
  input : String
  response : String
  htype : String
  sources : Option (List SourceVal) := none
  deriving DecidableEq, Repr

/-- `ChatState` (`main.py`, lines 26-34). -/
structure ChatState where
  conversation_history : List HistEntry := []
  current_input : String := ""
  research_failed : Bool := false
  research_error_message : String := ""
  research_results : Option ResearchResults := none
  has_new_research : Bool := false
  session_ended : Bool := false
  deriving DecidableEq, Repr

/-- The four return-value shapes of `ChatbotSession.process_message`:
`{intent: EXIT, response}`, `{intent: SEARCH, response, sources}`,
`{intent: CHAT, response, token_usage}` and `{error}`. -/
inductive Payload where
  | exitPayload (response : String)
  | searchPayload (response : String) (sources : List SourceVal)
  | chatPayload (response : String) (token_usage : Nat)
  | errorPayload (error : String)
  deriving DecidableEq, Repr

/-- Whether a payload is the `{error: ...}` shape (the adapter's
`"error" in result` test). -/
def Payload.isError : Payload → Bool
  | .errorPayload _ => true
  | _ => false

/-- `ChatbotSession.process_message` (`ag_ui_server.py`, lines 60-128).

External collaborators are parameters: `classifierResult` is the outcome of
the LLM completion inside `detect_intent`; `crew_kickoff` is
`ResearchCrew().crew().kickoff(...)` plus the pydantic attribute extraction on
lines 88-95, called on the expanded query, raising (`.error`) or returning the
`{summary, sources, citations}` payload; `synthesise` is
`synthesise_research(user_message, research_results)`, which can raise before
reaching its internal try block; `chat_reply` is `generate_chat_reply`, which
catches its own exceptions and always returns a string.

The listener epoch bookkeeping on lines 63-66 touches only the global
listener, not the session state, and is modelled with the adapter.  Note the
function inspects `session_ended` nowhere: every call classifies the message
and processes it in full. -/
def ChatbotSession.process_message (state : ChatState) (user_message : String)
    (conversation_history : Option (List HistEntry))
    (classifierResult : Except String String)
    (crew_kickoff : String → Except String ResearchResults)
    (synthesise : String → ResearchResults → Except String String)
    (chat_reply : List HistEntry → String → String) : Payload × ChatState :=
  let state := { state with current_input := user_message }
  let state :=
    match conversation_history with
    | some h => { state with conversation_history := h }
    | none => state
  let (intent, expanded_query) := detect_intent user_message classifierResult
  if intent = "EXIT" then
    (.exitPayload "👋 Session ended. Feel free to start a new one whenever you like!",
     { state with session_ended := true })
  else if intent = "SEARCH" then
    match crew_kickoff expanded_query with
    | .error e => (.errorPayload e, state)
    | .ok research_results =>
      let state :=
        { state with research_results := some research_results, has_new_research := true }
      match synthesise user_message research_results with
      | .error e => (.errorPayload e, state)
      | .ok answer =>
        (.searchPayload answer research_results.sources,
         { state with conversation_history := state.conversation_history ++
             [{ input := user_message, response := answer, htype := "research_enhanced",
                sources := some research_results.sources }] })
  else
    let reply := chat_reply state.conversation_history user_message
    (.chatPayload reply 0,
     { state with conversation_history := state.conversation_history ++
         [{ input := user_message, response := reply, htype := "chat" }] })

/-! ### `ag_ui_server.py`: the streaming adapter (`AGUIFlowAdapter`) -/

/-- A wire (AG-UI) event as built by `AGUIFlowAdapter._create_event`:
`{type, data, timestamp}`. -/
structure WireEvent where
  etype : String
  data : List (String × PyVal)
  timestamp : String

/-- `AGUIFlowAdapter._create_event` (lines 331-337); `now` is the
`datetime.now().isoformat()` timestamp. -/
def create_event (now : String) (event_type : String) (data : List (String × PyVal)) :
    WireEvent :=
  { etype := event_type, data := data, timestamp := now }

/-- The `event_type_mapping` dict lookup with default `"EXECUTION_STATUS"`
(`_create_ag_ui_event`, lines 341-351). -/
def event_type_mapping (t : String) : String :=
  if t = "AGENT_STARTED" then "AGENT_STATUS"
  else if t = "AGENT_FINISHED" then "AGENT_STATUS"
  else if t = "AGENT_ERROR" then "AGENT_ERROR"
  else if t = "TASK_FAILED" then "TASK_ERROR"
  else if t = "TOOL_STARTED" then "TOOL_USAGE"
  else if t = "TOOL_COMPLETED" then "TOOL_USAGE"
  else if t = "TOOL_ERROR" then "TOOL_ERROR"
  else "EXECUTION_STATUS"

/-- `AGUIFlowAdapter._create_ag_ui_event` (lines 339-367): the
`LLM_STREAM_CHUNK` special case becomes a `TEXT_MESSAGE_DELTA` carrying
`data["chunk"]` (the source indexes the key directly; the lookup default is
unreachable because the listener never emits that kind); every other event
keeps its data and timestamp under the mapped type. -/
def create_ag_ui_event (stream_event : StreamEvent) : WireEvent :=
  if stream_event.etype = "LLM_STREAM_CHUNK" then
    { etype := "TEXT_MESSAGE_DELTA"
      data := [("content", dictGet stream_event.data "chunk" PyVal.vnone)]
      timestamp := stream_event.timestamp }
  else
    { etype := event_type_mapping stream_event.etype
      data := stream_event.data
      timestamp := stream_event.timestamp }

/-- The body of the `for paragraph in paragraphs` loop of
`AGUIFlowAdapter._format_research_content` (lines 179-206), accumulating
formatted paragraphs. -/
def format_paragraph_acc (acc : List String) (paragraph : String) : List String :=
  let paragraph := pyStrip paragraph
  if paragraph = "" then acc
  else if pyStartsWith paragraph "•" then
    let bullets := ((pySplitOn paragraph "•").map pyStrip).filter (fun b => b ≠ "")
    acc ++ bullets.map (fun b => "• " ++ b)
  else if pyLen paragraph < 80 && !pyEndsWith paragraph "." && !pyEndsWith paragraph "!"
      && !pyEndsWith paragraph "?" && !pyStartsWith paragraph "In "
      && !pyStartsWith paragraph "The " && !pyStartsWith paragraph "This " then
    acc ++ ["## " ++ paragraph]
  else acc ++ [paragraph]

/-- `AGUIFlowAdapter._format_research_content` (lines 167-208). -/
def format_research_content (content : String) : String :=
  if content = "" then content
  else
    let content := pyStrip content
    let paragraphs := pySplitOn content "\n\n"
    pyJoin "\n\n" (paragraphs.foldl format_paragraph_acc [])

/-- The `netloc` component of Python's `urllib.parse.urlparse`, for the
common `scheme://host/...` shape the sources carry: the text between the
first `//` and the next `/`, `?` or `#` (empty when the url has no `//`). -/
def urlparse_netloc (url : String) : String :=
  match pySplitOn url "//" with
  | _ :: rest :: _ =>
    ((pySplitOn ((pySplitOn ((pySplitOn rest "/").headD "") "?").headD "") "#").headD "")
  | _ => ""

/-- `AGUIFlowAdapter._extract_domain` (lines 369-380): netloc, `www.`
stripped, capitalized.  The bare `except` returning `"Source"` guards the
urlparse import and is unreachable here. -/
def extract_domain (url : String) : String :=
  let domain := urlparse_netloc url
  let domain := if pyStartsWith domain "www." then pyDropChars domain 4 else domain
  pyCapitalize domain

/-- One formatted source dict as built on lines 282-295:
`{url, title, image_url, snippet}`. -/
structure FormattedSource where
  url : String
  title : String
  image_url : Option String := none
  snippet : Option String := none
  deriving DecidableEq, Repr

/-- Python `a or b` for an optional string `a` (both `None` and `""` are
falsy). -/
def pyOrStr (a : Option String) (b : String) : String :=
  match a with
  | some s => if s = "" then b else s
  | none => b

/-- The body of the `for source in sources[:5]` loop (lines 279-295): a
string source becomes `{url: s, title: domain, image_url: None, snippet:
None}`; a source with a `url` attribute keeps its fields with the title
defaulted from the domain; anything else is skipped. -/
def format_source (source : SourceVal) : Option FormattedSource :=
  match source with
  | .strSource s =>
    some { url := s, title := extract_domain s }
  | .info url title image_url snippet =>
    some { url := url, title := pyOrStr title (extract_domain url),
           image_url := image_url, snippet := snippet }
  | .plain => none

/-- The full `formatted_sources` list of lines 278-295: at most the first 5
sources, formatted, skipping unrecognized shapes. -/
def formatted_sources (sources : List SourceVal) : List FormattedSource :=
  (sources.take 5).filterMap format_source

/-- A formatted source as the `PyVal` dict placed in the `SOURCES_UPDATE`
event data. -/
def FormattedSource.toVal (f : FormattedSource) : PyVal :=
  .vdict [("url", .vstr f.url),
          ("title", .vstr f.title),
          ("image_url", match f.image_url with | some s => .vstr s | none => .vnone),
          ("snippet", match f.snippet with | some s => .vstr s | none => .vnone)]

/-- The content events the adapter emits once the flow result is in (lines
258-304): an error result gives one error delta; a SEARCH result gives the
formatted content delta plus, when the raw sources list is non-empty, a
`SOURCES_UPDATE` event; any other intent gives the verbatim content delta. -/
def content_events (now : String) (result : Payload) : List WireEvent :=
  match result with
  | .errorPayload e =>
    [create_event now "TEXT_MESSAGE_DELTA" [("content", .vstr ("❌ Error: " ++ e))]]
  | .searchPayload response sources =>
    [create_event now "TEXT_MESSAGE_DELTA"
      [("content", .vstr (format_research_content response))]]
    ++ (if sources.isEmpty then []
        else [create_event now "SOURCES_UPDATE"
          [("sources", .vlist ((formatted_sources sources).map FormattedSource.toVal))]])
  | .chatPayload response _ =>
    [create_event now "TEXT_MESSAGE_DELTA" [("content", .vstr response)]]
  | .exitPayload response =>
    [create_event now "TEXT_MESSAGE_DELTA" [("content", .vstr response)]]

/-- The dedup key `f"{event['type']}-{event['timestamp']}"` (lines 239, 253). -/
def eventKey (e : StreamEvent) : String := e.etype ++ "-" ++ e.timestamp

/-- The body of the `for event in events` loop (lines 237-242 and, identically,
the final flush on lines 252-256): skip a drained event whose key is in
`processed_events`, otherwise record the key and emit the translated event.
The accumulator is `(processed_events, emitted wire events)`. -/
def process_one_event (acc : List String × List WireEvent) (event : StreamEvent) :
    List String × List WireEvent :=
  let event_id := eventKey event
  if acc.1.contains event_id then acc
  else (event_id :: acc.1, acc.2 ++ [create_ag_ui_event event])

/-- One polling round of the monitoring loop: the `for event in events` loop
over one `get_events_realtime` drain. -/
def process_new_events (acc : List String × List WireEvent) (events : List StreamEvent) :
    List String × List WireEvent :=
  events.foldl process_one_event acc

/-- The whole monitoring phase: the successive `get_events_realtime` drains of
the polling loop followed by the final post-completion flush, one list entry
per drain, threaded through the shared `processed_events` set that starts
empty (line 230). -/
def monitor_events (rounds : List (List StreamEvent)) : List String × List WireEvent :=
  rounds.foldl process_new_events ([], [])

/-- The outcome of one `AGUIFlowAdapter.process_message` generator run: the
ordered stream of yielded wire events, and whether the `except` branch
cancelled a still-running flow task (lines 306-309). -/
structure AdapterRun where
  stream : List WireEvent
  task_cancelled : Bool

/-- `AGUIFlowAdapter.process_message` (lines 214-317) as a function of the
observable nondeterminism of one run: `rounds` are the successive Event Bus
drains (polling iterations plus the final flush; the queue's FIFO discipline
makes their concatenation the emission sequence); `result` is the value of
`await flow_task` (`_run_flow_message` converts every flow exception into an
`{error}` result, lines 319-329); `failure` is an exception escaping the
monitoring loop itself, positioned after `k` of the try-block's yields, with
`task_done_at_failure` telling whether the flow task had already finished
(lines 306-312: a still-running task is cancelled and a generic error delta
is yielded).  The `RUN_FINISHED` yield on lines 315-317 sits after the
try/except and is unconditional. -/
def adapter_process_message (now : String) (user_message : String)
    (rounds : List (List StreamEvent)) (result : Payload)
    (failure : Option (Nat × String)) (task_done_at_failure : Bool) : AdapterRun :=
  let run_started := create_event now "RUN_STARTED"
    [("status", .vstr "processing"), ("message", .vstr ("Processing: " ++ user_message))]
  let run_finished := create_event now "RUN_FINISHED" [("status", .vstr "complete")]
  let body := (monitor_events rounds).2 ++ content_events now result
  match failure with
  | none =>
    { stream := run_started :: body ++ [run_finished], task_cancelled := false }
  | some (k, msg) =>
    { stream := run_started :: body.take k
        ++ [create_event now "TEXT_MESSAGE_DELTA"
              [("content", .vstr ("❌ Unexpected error: " ++ msg))],
            run_finished]
      task_cancelled := !task_done_at_failure }

/-! ### Supporting lemmas -/

/-- Splitting at a separator character absent from both left parts is
unambiguous. -/
lemma no_sep_append_inj {c : Char} :
    ∀ {l1 l2 r1 r2 : List Char}, c ∉ l1 → c ∉ l2 →
      l1 ++ c :: r1 = l2 ++ c :: r2 → l1 = l2 ∧ r1 = r2 := by
  intro l1
  induction l1 with
  | nil =>
    intro l2 r1 r2 _ h2 h
    cases l2 with
    | nil => simpa using h
    | cons d u =>
      simp only [List.nil_append, List.cons_append, List.cons.injEq] at h
      exact absurd (h.1 ▸ List.mem_cons_self d u) h2
  | cons a t ih =>
    intro l2 r1 r2 h1 h2 h
    cases l2 with
    | nil =>
      simp only [List.nil_append, List.cons_append, List.cons.injEq] at h
      exact absurd (h.1 ▸ List.mem_cons_self a t) h1
    | cons b u =>
      simp only [List.cons_append, List.cons.injEq] at h
      have hrec := ih (fun hm => h1 (List.mem_cons_of_mem a hm))
        (fun hm => h2 (List.mem_cons_of_mem b hm)) h.2
      exact ⟨by rw [h.1, hrec.1], hrec.2⟩

/-- A key of the form `t ++ "-" ++ s` determines `t` and `s` when neither
type string contains a hyphen. -/
lemma key_string_inj {t1 t2 s1 s2 : String}
    (h1 : '-' ∉ t1.data) (h2 : '-' ∉ t2.data)
    (h : t1 ++ "-" ++ s1 = t2 ++ "-" ++ s2) : t1 = t2 ∧ s1 = s2 := by
  rw [String.ext_iff] at h
  simp only [String.data_append, List.append_assoc, List.singleton_append] at h
  obtain ⟨ha, hb⟩ := no_sep_append_inj h1 h2 h
  exact ⟨String.ext_iff.mpr ha, String.ext_iff.mpr hb⟩

/-- None of the listener's emittable event types contains a hyphen. -/
lemma emittable_no_hyphen {t : String} (h : t ∈ emittableTypes) : '-' ∉ t.data := by
  simp only [emittableTypes, List.mem_cons, List.not_mem_nil, or_false] at h
  rcases h with rfl | rfl | rfl | rfl <;> decide

/-- Distinct `(type, timestamp)` pairs whose types are emittable give
pairwise-distinct dedup keys. -/
lemma keys_nodup {es : List StreamEvent}
    (hvocab : ∀ e ∈ es, e.etype ∈ emittableTypes)
    (hpairs : (es.map (fun e => (e.etype, e.timestamp))).Nodup) :
    (es.map eventKey).Nodup := by
  have hmap : es.map eventKey
      = (es.map (fun e => (e.etype, e.timestamp))).map (fun p => p.1 ++ "-" ++ p.2) := by
    simp only [List.map_map]
    rfl
  rw [hmap]
  refine List.Nodup.map_on ?_ hpairs
  intro x hx y hy hxy
  obtain ⟨ex, hex, rfl⟩ := List.mem_map.mp hx
  obtain ⟨ey, hey, rfl⟩ := List.mem_map.mp hy
  dsimp only at hxy
  obtain ⟨h1, h2⟩ := key_string_inj (emittable_no_hyphen (hvocab ex hex))
    (emittable_no_hyphen (hvocab ey hey)) hxy
  rw [h1, h2]

/-- Folding the dedup loop body over events whose keys are fresh and pairwise
distinct emits every event, in order. -/
lemma foldl_process_one_event_all_new :
    ∀ (l : List StreamEvent) (seen : List String) (out : List WireEvent),
      (l.map eventKey).Nodup →
      (∀ e ∈ l, seen.contains (eventKey e) = false) →
      l.foldl process_one_event (seen, out)
        = ((l.map eventKey).reverse ++ seen, out ++ l.map create_ag_ui_event) := by
  intro l
  induction l with
  | nil => intro seen out _ _; simp
  | cons e t ih =>
    intro seen out hnodup hseen
    have hfresh : seen.contains (eventKey e) = false :=
      hseen e (List.mem_cons_self e t)
    have hfresh2 : eventKey e ∉ seen := by simpa using hfresh
    have hstep : process_one_event (seen, out) e
        = (eventKey e :: seen, out ++ [create_ag_ui_event e]) := by
      simp [process_one_event, hfresh2]
    have hn : (∀ x ∈ t, ¬ eventKey x = eventKey e) ∧ (t.map eventKey).Nodup := by
      simpa using hnodup
    have hrec := ih (eventKey e :: seen) (out ++ [create_ag_ui_event e]) hn.2
      (by
        intro e' he'
        rw [List.contains_cons]
        have hne : (eventKey e' == eventKey e) = false :=
          beq_eq_false_iff_ne.mpr (hn.1 e' he')
        rw [hne, hseen e' (List.mem_cons_of_mem e he')]
        rfl)
    rw [List.foldl_cons, hstep, hrec]
    simp

/-- With pairwise-distinct keys, the whole monitoring phase (polling rounds
plus final flush, sharing one seen-set) translates and emits exactly the
concatenation of the drains, in order. -/
lemma monitor_events_eq {rounds : List (List StreamEvent)}
    (hnodup : (rounds.flatten.map eventKey).Nodup) :
    (monitor_events rounds).2 = rounds.flatten.map create_ag_ui_event := by
  have hflat : monitor_events rounds = rounds.flatten.foldl process_one_event ([], []) := by
    rw [monitor_events, List.foldl_flatten]
    rfl
  rw [hflat, foldl_process_one_event_all_new rounds.flatten [] [] hnodup
    (by intro e _; rfl)]
  simp

/-! ### Claim C1 -/

/-- C1: for every sequence of events with pairwise-distinct
`(type, timestamp)` pairs (drawn, as all Event Bus events are, from the
listener's emittable vocabulary) delivered across the polling rounds and the
final flush, and no events afterwards, the adapter's stream is exactly
`RUN_STARTED`, then each drained event exactly once in original emission
order, then the content event(s), then `RUN_FINISHED`: the polling loop plus
the post-completion flush never drops, duplicates or reorders a drained
event, wherever the poll/flush boundary falls. -/
theorem adapter_stream_exactly_once_in_order
    (now user_message : String) (rounds : List (List StreamEvent)) (result : Payload)
    (hvocab : ∀ e ∈ rounds.flatten, e.etype ∈ emittableTypes)
    (hdistinct : (rounds.flatten.map (fun e => (e.etype, e.timestamp))).Nodup) :
    (adapter_process_message now user_message rounds result none true).stream
      = create_event now "RUN_STARTED"
          [("status", .vstr "processing"), ("message", .vstr ("Processing: " ++ user_message))]
        :: (rounds.flatten.map create_ag_ui_event
            ++ content_events now result
            ++ [create_event now "RUN_FINISHED" [("status", .vstr "complete")]]) := by
  have h := monitor_events_eq (keys_nodup hvocab hdistinct)
  simp [adapter_process_message, h, List.append_assoc]

/-- Sample bus event for witnesses: an agent-started event. -/
def wEv1 : StreamEvent :=
  { etype := "AGENT_STARTED", data := [("status", .vstr "executing")],
    timestamp := "2025-01-01T00:00:00.000001" }

/-- Sample bus event for witnesses: a tool-started event. -/
def wEv2 : StreamEvent :=
  { etype := "TOOL_STARTED", data := [], timestamp := "2025-01-01T00:00:00.000002" }

/-- Sample bus event for witnesses: an agent-finished event. -/
def wEv3 : StreamEvent :=
  { etype := "AGENT_FINISHED", data := [], timestamp := "2025-01-01T00:00:00.000003" }

/-- Witness for C1 at three concrete events split across two drains. -/
theorem adapter_stream_exactly_once_in_order_witness :
    (adapter_process_message "now" "hi" [[wEv1], [wEv2, wEv3]] (.chatPayload "hello" 0) none true).stream
      = create_event "now" "RUN_STARTED"
          [("status", .vstr "processing"), ("message", .vstr "Processing: hi")]
        :: ([wEv1, wEv2, wEv3].map create_ag_ui_event
            ++ content_events "now" (.chatPayload "hello" 0)
            ++ [create_event "now" "RUN_FINISHED" [("status", .vstr "complete")]]) := by
  have h := adapter_stream_exactly_once_in_order "now" "hi" [[wEv1], [wEv2, wEv3]]
    (.chatPayload "hello" 0)
    (by
      intro e he
      simp only [List.flatten, List.append_nil, List.mem_cons, List.not_mem_nil, or_false,
        List.singleton_append, List.nil_append] at he
      rcases he with rfl | rfl | rfl <;> decide)
    (by decide)
  exact h

/-! ### Claim C2 -/

/-- C2: whatever the drains, the flow result (normal, error-keyed, or an
exception already converted to an error result by `_run_flow_message`) and
any exception escaping the monitoring loop, the adapter stream always ends
with the `RUN_FINISHED` event; when an exception escapes the monitoring loop,
a still-running flow task is cancelled and the generic error content delta is
the event immediately before `RUN_FINISHED`. -/
theorem run_finished_always_last
    (now user_message : String) (rounds : List (List StreamEvent)) (result : Payload)
    (failure : Option (Nat × String)) (task_done : Bool) :
    (adapter_process_message now user_message rounds result failure task_done).stream.getLast?
        = some (create_event now "RUN_FINISHED" [("status", .vstr "complete")])
      ∧ ∀ k msg, failure = some (k, msg) →
          (adapter_process_message now user_message rounds result failure task_done).task_cancelled
              = !task_done
            ∧ (adapter_process_message now user_message rounds result failure task_done).stream.dropLast.getLast?
              = some (create_event now "TEXT_MESSAGE_DELTA"
                  [("content", .vstr ("❌ Unexpected error: " ++ msg))]) := by
  cases failure with
  | none =>
    refine ⟨?_, by intro k msg h; cases h⟩
    have hs : (adapter_process_message now user_message rounds result none task_done).stream
        = (create_event now "RUN_STARTED"
            [("status", .vstr "processing"), ("message", .vstr ("Processing: " ++ user_message))]
          :: ((monitor_events rounds).2 ++ content_events now result))
          ++ [create_event now "RUN_FINISHED" [("status", .vstr "complete")]] := by
      simp [adapter_process_message]
    rw [hs, List.getLast?_concat]
  | some p =>
    obtain ⟨k, msg⟩ := p
    have hs : (adapter_process_message now user_message rounds result (some (k, msg)) task_done).stream
        = ((create_event now "RUN_STARTED"
            [("status", .vstr "processing"), ("message", .vstr ("Processing: " ++ user_message))]
          :: (((monitor_events rounds).2 ++ content_events now result).take k
              ++ [create_event now "TEXT_MESSAGE_DELTA"
                    [("content", .vstr ("❌ Unexpected error: " ++ msg))]]))
          ++ [create_event now "RUN_FINISHED" [("status", .vstr "complete")]]) := by
      simp [adapter_process_message]
    refine ⟨by rw [hs, List.getLast?_concat], ?_⟩
    intro k' msg' h
    obtain ⟨rfl, rfl⟩ := Prod.mk.inj (Option.some.inj h)
    refine ⟨rfl, ?_⟩
    rw [hs, List.dropLast_concat]
    have hs2 : (create_event now "RUN_STARTED"
            [("status", .vstr "processing"), ("message", .vstr ("Processing: " ++ user_message))]
          :: (((monitor_events rounds).2 ++ content_events now result).take k
              ++ [create_event now "TEXT_MESSAGE_DELTA"
                    [("content", .vstr ("❌ Unexpected error: " ++ msg))]]))
        = (create_event now "RUN_STARTED"
            [("status", .vstr "processing"), ("message", .vstr ("Processing: " ++ user_message))]
          :: ((monitor_events rounds).2 ++ content_events now result).take k)
          ++ [create_event now "TEXT_MESSAGE_DELTA"
                [("content", .vstr ("❌ Unexpected error: " ++ msg))]] := by
      simp
    rw [hs2, List.getLast?_concat]

/-- Witness for C2: a run whose monitoring loop fails while the flow task is
still running still ends in `RUN_FINISHED`, and the task is cancelled. -/
theorem run_finished_always_last_witness :
    (adapter_process_message "now" "m" [] (.chatPayload "r" 0) (some (0, "boom")) false).task_cancelled
        = true
      ∧ (adapter_process_message "now" "m" [] (.chatPayload "r" 0) (some (0, "boom")) false).stream.getLast?
        = some (create_event "now" "RUN_FINISHED" [("status", .vstr "complete")]) := by
  have h := run_finished_always_last "now" "m" [] (.chatPayload "r" 0) (some (0, "boom")) false
  exact ⟨(h.2 0 "boom" rfl).1, h.1⟩

/-! ### Claim C3 -/

/-- C3 is violated by the code: `ChatbotSession.process_message` never
consults `session_ended`.  With `session_ended = true` and a message the
classifier labels CHAT, the call still performs the classification (the
outcome depends on the classifier result, as the EXIT conjunct shows),
processes the turn in full, mutates the conversation history and returns a
CHAT payload instead of the standing termination payload.  `SimpleChatFlow`
(`main.py`, lines 52-54), whose behaviour the class docstring says it
replicates, and spec §4.3 step 1 both short-circuit on `session_ended`. -/
theorem session_ended_not_absorbing :
    ((ChatbotSession.process_message { session_ended := true } "hello" none
          (.ok "INTENT: CHAT") (fun _ => .error "unused") (fun _ _ => .error "unused")
          (fun _ _ => "hi there")).1
        = .chatPayload "hi there" 0
      ∧ (ChatbotSession.process_message { session_ended := true } "hello" none
          (.ok "INTENT: CHAT") (fun _ => .error "unused") (fun _ _ => .error "unused")
          (fun _ _ => "hi there")).2.conversation_history
        = [{ input := "hello", response := "hi there", htype := "chat" }])
      ∧ (ChatbotSession.process_message { session_ended := true } "hello" none
          (.ok "INTENT: EXIT") (fun _ => .error "unused") (fun _ _ => .error "unused")
          (fun _ _ => "hi there")).1
        = .exitPayload "👋 Session ended. Feel free to start a new one whenever you like!" := by
  exact ⟨⟨by decide, by decide⟩, by decide⟩

/-! ### Claim C4 -/

/-- C4: history mutation asymmetry of one turn (no history argument passed):
an EXIT turn appends nothing; a SEARCH turn whose crew kickoff or synthesis
step raises leaves the history unchanged and returns the error payload; a
successful SEARCH turn appends exactly one `research_enhanced` entry; a CHAT
turn appends exactly one `chat` entry. -/
theorem history_mutation_asymmetry
    (state : ChatState) (m : String) (cls : Except String String)
    (crew : String → Except String ResearchResults)
    (synth : String → ResearchResults → Except String String)
    (reply : List HistEntry → String → String) :
    ((detect_intent m cls).1 = "EXIT" →
      (ChatbotSession.process_message state m none cls crew synth reply).2.conversation_history
        = state.conversation_history)
    ∧ ((detect_intent m cls).1 = "SEARCH" →
        (∀ e, crew (detect_intent m cls).2 = .error e →
          (ChatbotSession.process_message state m none cls crew synth reply).2.conversation_history
              = state.conversation_history
            ∧ (ChatbotSession.process_message state m none cls crew synth reply).1
              = .errorPayload e)
        ∧ (∀ res e, crew (detect_intent m cls).2 = .ok res → synth m res = .error e →
            (ChatbotSession.process_message state m none cls crew synth reply).2.conversation_history
                = state.conversation_history
              ∧ (ChatbotSession.process_message state m none cls crew synth reply).1
                = .errorPayload e)
        ∧ (∀ res a, crew (detect_intent m cls).2 = .ok res → synth m res = .ok a →
            (ChatbotSession.process_message state m none cls crew synth reply).2.conversation_history
              = state.conversation_history
                ++ [{ input := m, response := a, htype := "research_enhanced",
                      sources := some res.sources }]))
    ∧ ((detect_intent m cls).1 = "CHAT" →
        (ChatbotSession.process_message state m none cls crew synth reply).2.conversation_history
          = state.conversation_history
            ++ [{ input := m, response := reply state.conversation_history m,
                  htype := "chat" }]) := by
  rcases hdi : detect_intent m cls with ⟨i, q⟩
  simp only [ChatbotSession.process_message, hdi]
  refine ⟨?_, ?_, ?_⟩
  · intro hi
    subst hi
    simp
  · intro hi
    subst hi
    refine ⟨?_, ?_, ?_⟩
    · intro e he
      simp [he]
    · intro res e hres he
      simp [hres, he]
    · intro res a hres ha
      simp [hres, ha]
  · intro hi
    subst hi
    simp

/-- Witness for C4: a successful SEARCH turn appends exactly the research
entry. -/
theorem history_mutation_asymmetry_witness :
    (ChatbotSession.process_message {} "what is rust" none
        (.ok "INTENT: SEARCH\nEXPANDED_QUERY: rust language")
        (fun _ => .ok { summary := "s" }) (fun _ _ => .ok "answer")
        (fun _ _ => "r")).2.conversation_history
      = [{ input := "what is rust", response := "answer", htype := "research_enhanced",
           sources := some [] }] := by
  have h := (history_mutation_asymmetry {} "what is rust"
    (.ok "INTENT: SEARCH\nEXPANDED_QUERY: rust language")
    (fun _ => .ok { summary := "s" }) (fun _ _ => .ok "answer")
    (fun _ _ => "r")).2.1 (by decide)
  exact h.2.2 { summary := "s" } "answer" rfl rfl

/-! ### Claim C5 -/

/-- C5 as stated is false: a completion output containing no `INTENT:` line
at all (so no valid intent tag) but an `EXPANDED_QUERY:` line defaults the
intent to CHAT yet returns the parsed expanded query, not the verbatim input
message. -/
theorem detect_intent_missing_tag_keeps_expanded :
    detect_intent "hello" (.ok "EXPANDED_QUERY: pizza") = ("CHAT", "pizza")
      ∧ detect_intent "hello" (.ok "EXPANDED_QUERY: pizza") ≠ ("CHAT", "hello") :=
  ⟨by decide, by decide⟩

/-- C5 amended: `detect_intent` always returns one of the three tags; an
exception from the completion call yields `(CHAT, message)` verbatim; an
output whose extracted intent (defaulted to CHAT when no `INTENT:` line is
present) is not a valid tag yields `(CHAT, message)` verbatim.  (An output
with no `INTENT:` line defaults the intent to CHAT but keeps any parsed
`EXPANDED_QUERY:`, so the second component need not be the verbatim message
in that case.) -/
theorem detect_intent_contract (text : String) (res : Except String String) :
    ((detect_intent text res).1 = "SEARCH" ∨ (detect_intent text res).1 = "CHAT"
        ∨ (detect_intent text res).1 = "EXIT")
      ∧ (∀ e, res = .error e → detect_intent text res = ("CHAT", text))
      ∧ (∀ c, res = .ok c →
          (tag_line_value (pyStrip c) "INTENT:").getD "CHAT" ≠ "SEARCH" →
          (tag_line_value (pyStrip c) "INTENT:").getD "CHAT" ≠ "CHAT" →
          (tag_line_value (pyStrip c) "INTENT:").getD "CHAT" ≠ "EXIT" →
          detect_intent text res = ("CHAT", text)) := by
  refine ⟨?_, ?_, ?_⟩
  · cases res with
    | error e => simp [detect_intent]
    | ok c =>
      simp only [detect_intent]
      split
      · next h => simpa using h
      · simp
  · intro e he
    subst he
    rfl
  · intro c hc h1 h2 h3
    subst hc
    simp only [detect_intent]
    rw [if_neg]
    rintro (h | h | h)
    exacts [h1 h, h2 h, h3 h]

/-- Witness for C5: the exception fallback and the invalid-tag fallback both
return the verbatim message with intent CHAT. -/
theorem detect_intent_contract_witness :
    detect_intent "hi" (.error "boom") = ("CHAT", "hi")
      ∧ detect_intent "hi" (.ok "INTENT: FOO") = ("CHAT", "hi") :=
  ⟨(detect_intent_contract "hi" (.error "boom")).2.1 "boom" rfl,
   (detect_intent_contract "hi" (.ok "INTENT: FOO")).2.2 "INTENT: FOO" rfl
     (by decide) (by decide) (by decide)⟩

/-! ### Claim C6 -/

/-- An event whose `data` holds a list containing an opaque object, for the
C6 counterexample. -/
def wDirtyEv : StreamEvent :=
  { etype := "TOOL_STARTED", data := [("sources", .vlist [.vobj "ExaResult"])],
    timestamp := "t" }

/-- C6 as stated is false: sanitization is not recursive and does not produce
sanitized containers.  For an event whose `data` holds a list containing an
opaque object, the source's `_clean_event_data` coerces the whole list to one
string, while the spec's recursive sanitizer would keep it a sequence (of
strings); the two disagree at this input. -/
theorem clean_event_data_flat_counterexample :
    ((clean_event_data wDirtyEv).data.map (fun kv => kv.2.isStr)) = [true]
      ∧ ((clean_event_data_spec wDirtyEv).data.map (fun kv => kv.2.isList)) = [true]
      ∧ clean_event_data wDirtyEv ≠ clean_event_data_spec wDirtyEv := by
  refine ⟨by decide, by decide, ?_⟩
  intro h
  exact absurd (congrArg (fun ev => ev.data.map (fun kv => kv.2.isStr)) h) (by decide)

/-- C6 amended: every value of an enqueued (and hence delivered) event's
`data` is a JSON-safe primitive — non-primitive values, containers included,
are coerced wholly to their string representation in one flat pass, so no
opaque non-primitive object (and no container) ever leaves the Event Bus. -/
theorem clean_event_data_all_primitive (event : StreamEvent) :
    ((clean_event_data event).data.all (fun kv => kv.2.isPrimitive)) = true := by
  rw [List.all_eq_true]
  intro x hx
  have hx2 : x ∈ event.data.map (fun kv =>
      if kv.2.isPrimitive then kv else (kv.1, PyVal.vstr (pyStr kv.2))) := hx
  obtain ⟨kv, _, rfl⟩ := List.mem_map.mp hx2
  by_cases h : kv.2.isPrimitive
  · simp only [if_pos h]
    exact h
  · simp only [if_neg h]
    rfl

/-! ### Claim C7 -/

/-- C7 as stated is false on the bounded-and-full case: `put_nowait` on a
full bounded queue raises `queue.Full` and leaves the queue unchanged — the
newest event is the one discarded, the oldest pending event is kept, and
`_emit_event` propagates the exception. -/
theorem put_nowait_full_rejects_newest :
    EventQueue.put_nowait { maxsize := 1, items := [wEv1] } wEv2 = .error ()
      ∧ emit_event { event_queue := { maxsize := 1, items := [wEv1] }, session_id := "s" } wEv2
        = .error () :=
  ⟨rfl, rfl⟩

/-- C7 amended: `emit` never blocks (it uses `put_nowait`), and the queue the
source constructs is unbounded (`maxsize = 0`), so every emit succeeds,
appending the sanitized event at the tail and dropping nothing; were the
queue bounded and full, `put_nowait` would raise `queue.Full`, rejecting the
newest event rather than dropping the oldest. -/
theorem emit_event_unbounded_appends (listener : RealTimeListener) (event : StreamEvent)
    (h : listener.event_queue.maxsize = 0) :
    emit_event listener event
      = .ok { listener with event_queue :=
          { listener.event_queue with
              items := listener.event_queue.items ++ [clean_event_data event] } } := by
  have hfull : listener.event_queue.full = false := by
    simp [EventQueue.full, h]
  simp [emit_event, EventQueue.put_nowait, hfull]

/-- Witness for C7 amended: emitting on the freshly constructed listener
queue succeeds and enqueues the sanitized event. -/
theorem emit_event_unbounded_appends_witness :
    emit_event { event_queue := {}, session_id := "s" } wEv1
      = .ok { event_queue := { items := [clean_event_data wEv1] }, session_id := "s" } :=
  emit_event_unbounded_appends { event_queue := {}, session_id := "s" } wEv1 rfl

/-! ### Claim C8 -/

/-- Whether a source value is the research-pipeline contract shape (an object
with a `url` attribute). -/
def SourceVal.isInfo : SourceVal → Bool
  | .info _ _ _ _ => true
  | _ => false

/-- Formatting skips nothing when every source has the contract shape. -/
lemma length_formatted_of_info :
    ∀ {l : List SourceVal}, (∀ s ∈ l, s.isInfo = true) →
      (l.filterMap format_source).length = l.length := by
  intro l
  induction l with
  | nil => intro _; rfl
  | cons s t ih =>
    intro h
    have hs := h s (List.mem_cons_self s t)
    cases s with
    | info url title image_url snippet =>
      simp only [List.filterMap_cons, format_source, List.length_cons]
      rw [ih (fun s' hs' => h s' (List.mem_cons_of_mem _ hs'))]
    | strSource s0 => cases hs
    | plain => cases hs

/-- C8: a SEARCH result with no error key and a non-empty sources list of
contract-shaped entries makes the adapter emit, directly after the formatted
`TEXT_MESSAGE_DELTA` content event and before `RUN_FINISHED`, a
`SOURCES_UPDATE` event whose `data.sources` lists the formatted sources — one
per source up to the first 5, each a dict of shape
`{url, title, image_url, snippet}`. -/
theorem search_sources_update_event
    (now user_message response : String) (rounds : List (List StreamEvent))
    (sources : List SourceVal)
    (hne : sources ≠ [])
    (hinfo : ∀ s ∈ sources, s.isInfo = true) :
    (adapter_process_message now user_message rounds (.searchPayload response sources) none true).stream
        = create_event now "RUN_STARTED"
            [("status", .vstr "processing"), ("message", .vstr ("Processing: " ++ user_message))]
          :: ((monitor_events rounds).2
              ++ [create_event now "TEXT_MESSAGE_DELTA"
                    [("content", .vstr (format_research_content response))],
                  create_event now "SOURCES_UPDATE"
                    [("sources", .vlist ((formatted_sources sources).map FormattedSource.toVal))],
                  create_event now "RUN_FINISHED" [("status", .vstr "complete")]])
      ∧ (formatted_sources sources).length = min 5 sources.length
      ∧ (formatted_sources sources).length ≤ 5
      ∧ ∀ v ∈ (formatted_sources sources).map FormattedSource.toVal,
          match v with
          | PyVal.vdict entries => entries.map Prod.fst = ["url", "title", "image_url", "snippet"]
          | _ => False := by
  have hemp : sources.isEmpty = false := by
    cases sources with
    | nil => exact absurd rfl hne
    | cons a t => rfl
  have hlen : (formatted_sources sources).length = min 5 sources.length := by
    rw [formatted_sources,
      length_formatted_of_info (fun s hs => hinfo s (List.take_subset 5 sources hs))]
    simp [List.length_take]
  refine ⟨?_, hlen, ?_, ?_⟩
  · simp [adapter_process_message, content_events, hemp]
  · rw [hlen]
    exact Nat.min_le_left 5 sources.length
  · intro v hv
    obtain ⟨f, _, rfl⟩ := List.mem_map.mp hv
    simp [FormattedSource.toVal]

/-- Witness for C8 at one concrete contract-shaped source. -/
theorem search_sources_update_event_witness :
    (adapter_process_message "now" "q" [] (.searchPayload "sum" [.info "https://a.com" (some "A") none none]) none true).stream
        = create_event "now" "RUN_STARTED"
            [("status", .vstr "processing"), ("message", .vstr "Processing: q")]
          :: ((monitor_events []).2
              ++ [create_event "now" "TEXT_MESSAGE_DELTA"
                    [("content", .vstr (format_research_content "sum"))],
                  create_event "now" "SOURCES_UPDATE"
                    [("sources", .vlist ((formatted_sources [.info "https://a.com" (some "A") none none]).map FormattedSource.toVal))],
                  create_event "now" "RUN_FINISHED" [("status", .vstr "complete")]])
      ∧ (formatted_sources [.info "https://a.com" (some "A") none none]).length ≤ 5 := by
  have h := search_sources_update_event "now" "q" "sum" []
    [.info "https://a.com" (some "A") none none] (by decide) (by decide)
  exact ⟨h.1, h.2.2.1⟩

/-! ### Claim C9 -/

/-- C9 as stated is false: a call that passes a `conversation_history`
argument replaces the session state's history wholesale before the turn is
processed, so the prior state history need not be a prefix of the new one. -/
theorem provided_history_replaces_state :
    ¬ (({ conversation_history := [{ input := "a", response := "b", htype := "chat" }] } : ChatState).conversation_history
        <+: (ChatbotSession.process_message
            { conversation_history := [{ input := "a", response := "b", htype := "chat" }] }
            "hi" (some []) (.ok "INTENT: CHAT") (fun _ => .error "u") (fun _ _ => .error "u")
            (fun _ _ => "yo")).2.conversation_history) := by
  decide

/-- C9 amended: history is append-only across calls that pass no
`conversation_history` argument — the history before such a call is a prefix
of the history after it; a provided argument instead replaces the state
history with the given list before the turn appends to it. -/
theorem history_append_only_without_argument
    (state : ChatState) (m : String) (cls : Except String String)
    (crew : String → Except String ResearchResults)
    (synth : String → ResearchResults → Except String String)
    (reply : List HistEntry → String → String) :
    state.conversation_history
      <+: (ChatbotSession.process_message state m none cls crew synth reply).2.conversation_history := by
  rcases hdi : detect_intent m cls with ⟨i, q⟩
  simp only [ChatbotSession.process_message, hdi]
  split
  · exact List.prefix_refl _
  · split
    · split
      · exact List.prefix_refl _
      · split
        · exact List.prefix_refl _
        · exact List.prefix_append _ _
    · exact List.prefix_append _ _

/-! ### Claim C10 -/

/-- C10: every event the listener handlers can enqueue has type
`AGENT_STARTED`, `AGENT_FINISHED`, `TOOL_STARTED` or `TOOL_ERROR` (in
particular never `TOOL_COMPLETED` — that handler's emission is commented out
— and never `LLM_STREAM_CHUNK`); consequently, on the wire a `TOOL_USAGE`
event can only originate from `TOOL_STARTED`, and the pipeline-event path
never yields a `TEXT_MESSAGE_DELTA`. -/
theorem listener_event_types (e : CrewEvent) (now sid : String) :
    ∀ ev, listener_event e now sid = some ev →
      ev.etype ∈ emittableTypes
        ∧ (create_ag_ui_event (clean_event_data ev)).etype ≠ "TEXT_MESSAGE_DELTA"
        ∧ ((create_ag_ui_event (clean_event_data ev)).etype = "TOOL_USAGE" →
            ev.etype = "TOOL_STARTED") := by
  intro ev hev
  cases e with
  | agentStarted agent =>
    cases agent with
    | none => cases hev
    | some a =>
      obtain rfl := Option.some.inj hev
      refine ⟨by simp [emittableTypes], ?_, ?_⟩ <;>
        simp [create_ag_ui_event, clean_event_data, event_type_mapping]
  | agentCompleted agent =>
    cases agent with
    | none => cases hev
    | some a =>
      obtain rfl := Option.some.inj hev
      refine ⟨by simp [emittableTypes], ?_, ?_⟩ <;>
        simp [create_ag_ui_event, clean_event_data, event_type_mapping]
  | toolStarted tool_name tool_args agent =>
    obtain rfl := Option.some.inj hev
    refine ⟨by simp [emittableTypes], ?_, ?_⟩ <;>
      simp [create_ag_ui_event, clean_event_data, event_type_mapping]
  | toolFinished tool_name tool_args agent => cases hev
  | toolError tool_name tool_args agent error =>
    obtain rfl := Option.some.inj hev
    refine ⟨by simp [emittableTypes], ?_, ?_⟩ <;>
      simp [create_ag_ui_event, clean_event_data, event_type_mapping]

/-- The stream event the listener emits for a sample tool-started bus event. -/
def wToolEv : StreamEvent :=
  { etype := "TOOL_STARTED"
    data := [("tool_name", .vstr "exa_search"),
             ("tool_query", .vstr "rust"),
             ("agent_role", .vstr "Research Agent"),
             ("message", .vstr "Searching for rust"),
             ("status", .vstr "executing")]
    timestamp := "now"
    agent_id := none
    session_id := some "sid" }

/-- Witness for C10 at a concrete tool-started event. -/
theorem listener_event_types_witness :
    wToolEv.etype ∈ emittableTypes
      ∧ (create_ag_ui_event (clean_event_data wToolEv)).etype ≠ "TEXT_MESSAGE_DELTA"
      ∧ ((create_ag_ui_event (clean_event_data wToolEv)).etype = "TOOL_USAGE" →
          wToolEv.etype = "TOOL_STARTED") :=
  listener_event_types (.toolStarted "exa_search" (.dictArgs [("query", .vstr "rust")]) none)
    "now" "sid" wToolEv rfl
